import Mathlib

/-!
Verification of the aggregateless event store repository
(`eventstore-ts-example`).

The repository snapshot contains the banking feature slices
(`transfer-money`, `deposit-money`, `withdraw-money` in two variants,
`open-bank-account`, `get-account`), the repository README and the unit
tests of the pure core functions.  The event-store core itself
(`src/eventstore`: `EventFilter`, `query`, `append`, the CTE-based
conditional insert) is not part of the snapshot; those definitions are
modelled from the specification and marked as such.  Everything taken
from the slice sources is a direct transcription.

Conventions of the embedding:

* JavaScript numbers are modelled as rationals (`ℚ`).
* A JavaScript value that may be `undefined` is modelled as an `Option`;
  JavaScript's `a || b` on strings (with `""` and `undefined` falsy) is
  `jsOr`.
* JSONB payloads are modelled by the inductive `Json`; Postgres' `@>`
  subset containment is `jcontains`.
-/

/-- Modelled from the spec: a JSON-shaped structured value, the type of
event payloads and of payload subset predicates (§3).  The event-store
core that interprets them is not in the repository snapshot. -/
inductive Json where
  | null : Json
  | bool (b : Bool) : Json
  | num (q : ℚ) : Json
  | str (s : String) : Json
  | arr (elems : List Json) : Json
  | obj (fields : List (String × Json)) : Json

/-- Key lookup in a JSON object's field list (first binding wins). -/
def jlookup (k : String) : List (String × Json) → Option Json
  | [] => none
  | (k', v) :: rest => if k' = k then some v else jlookup k rest

mutual

/-- Modelled from the spec: JSON subset containment, the Postgres `@>`
relation (§4.2, glossary): an object contains another iff every key of
the contained object is present with a containing value (recursively);
an array contains another iff every listed element is contained in some
element; scalars are compared structurally. -/
def jcontains : Json → Json → Bool
  | Json.obj af, Json.obj bf => jcontainsFields af bf
  | Json.arr xs, Json.arr ys => jcontainsElems xs ys
  | Json.str s, Json.str t => s == t
  | Json.num m, Json.num n => m == n
  | Json.bool a, Json.bool b => a == b
  | Json.null, Json.null => true
  | _, _ => false
termination_by _a b => (sizeOf b, 0)

/-- Containment of every key/value binding of the second field list in
the first field list. -/
def jcontainsFields (af : List (String × Json)) : List (String × Json) → Bool
  | [] => true
  | (k, v) :: rest =>
    (match jlookup k af with
     | some w => jcontains w v
     | none => false) && jcontainsFields af rest
termination_by bf => (sizeOf bf, 1)

/-- Containment of every element of the second list in some element of
the first list. -/
def jcontainsElems (xs : List Json) : List Json → Bool
  | [] => true
  | y :: ys => jcontainsAny xs y && jcontainsElems xs ys
termination_by ys => (sizeOf ys, 2)

/-- Some element of the list contains the given value. -/
def jcontainsAny : List Json → Json → Bool
  | [], _ => false
  | x :: rest, y => jcontains x y || jcontainsAny rest y
termination_by xs y => (sizeOf y, 1 + sizeOf xs)

end

/-! ## The event-store core, modelled from the specification

The store implementation (`src/eventstore`) is absent from the
repository snapshot; only its callers (the feature slices) are present.
The definitions in this namespace follow §3–§5 of the specification:
events are persisted in an append-only log ordered by a globally
increasing `sequence_number`; a filter selects events by type tag and by
a disjunction of JSON payload subset predicates; `append` fuses the
optimistic-concurrency check with the insert into one atomic step. -/

namespace EventStore

/-- Modelled from the spec: the shape in which callers supply an event
to `append` (§4.1): a type tag and a payload.  The informational
`metadata` and `occurred_at` fields are never examined by the store's
matching logic (§3) and are omitted. -/
structure InputEvent where
  event_type : String
  payload : Json

/-- Modelled from the spec: the shape the store returns to callers
(§4.1): the persisted fields plus the assigned global sequence
number. -/
structure EventRecord where
  sequence_number : ℕ
  event_type : String
  payload : Json

/-- Modelled from the spec: a filter value (§3): a set of event type
tags and an ordered list of payload subset predicates, interpreted as a
disjunction. -/
structure EventFilter where
  event_types : List String
  payload_predicates : List Json

/-- Modelled from the spec: `createFilter(types, predicates?)` (§4.2).
Call sites that omit the optional predicate list pass `[]` here. -/
def createFilter (types : List String) (predicates : List Json) : EventFilter :=
  { event_types := types, payload_predicates := predicates }

/-- Modelled from the spec: `withPayloadPredicate(key, value)` (§4.2)
returns a new filter with one additional one-key subset predicate. -/
def EventFilter.withPayloadPredicate (f : EventFilter) (k : String) (v : Json) : EventFilter :=
  { f with payload_predicates := f.payload_predicates ++ [Json.obj [(k, v)]] }

/-- Modelled from the spec: `withPayloadPredicates(obj)` (§4.2) returns
a new filter with one additional subset predicate equal to `obj`. -/
def EventFilter.withPayloadPredicates (f : EventFilter) (o : List (String × Json)) : EventFilter :=
  { f with payload_predicates := f.payload_predicates ++ [Json.obj o] }

/-- Modelled from the spec: the authoritative matching semantics (§4.2):
an event matches a filter iff its type is in the filter's type set and
the predicate list is empty or some predicate is a JSON subset of the
payload. -/
def matchesFilter (F : EventFilter) (e : EventRecord) : Bool :=
  F.event_types.contains e.event_type &&
    (F.payload_predicates.isEmpty || F.payload_predicates.any (fun p => jcontains e.payload p))

/-- The matching semantics applied to a not-yet-persisted input event
(type tag and payload only). -/
def inputMatches (F : EventFilter) (e : InputEvent) : Bool :=
  F.event_types.contains e.event_type &&
    (F.payload_predicates.isEmpty || F.payload_predicates.any (fun p => jcontains e.payload p))

/-- Maximum of a list of naturals, `0` when empty. -/
def natMax (l : List ℕ) : ℕ := l.foldl max 0

/-- Modelled from the spec: the largest sequence number of any event in
the log matching the filter, `0` if none (§4.3, §4.4 step 1). -/
def maxSeqFor (F : EventFilter) (log : List EventRecord) : ℕ :=
  natMax ((log.filter (matchesFilter F)).map (fun e => e.sequence_number))

/-- The largest sequence number assigned so far (the `BIGSERIAL`
high-water mark). -/
def globalMaxSeq (log : List EventRecord) : ℕ :=
  natMax (log.map (fun e => e.sequence_number))

/-- Modelled from the spec: `query(filter)` returns every matching
event in ascending sequence order together with `maxSequenceNumber`
(§4.3). -/
structure QueryResult where
  events : List EventRecord
  maxSequenceNumber : ℕ

/-- Modelled from the spec: the query engine (§4.3): filter the log,
preserving the global order, and report the largest matching sequence
number. -/
def query (F : EventFilter) (log : List EventRecord) : QueryResult :=
  { events := log.filter (matchesFilter F), maxSequenceNumber := maxSeqFor F log }

/-- Events of a single batch receive consecutive sequence numbers above
the current high-water mark, in caller order (§3 intra-batch order). -/
def assignSeqs (base : ℕ) : List InputEvent → List EventRecord
  | [] => []
  | e :: rest => ⟨base + 1, e.event_type, e.payload⟩ :: assignSeqs (base + 1) rest

/-- Modelled from the spec: the error reported when the conditional
append's expected-max-sequence-number check fails (§4.4, §7). -/
inductive AppendError where
  | concurrencyConflict
deriving DecidableEq

/-- Outcome of an append: the log after the call and the error, if any.
A failed append leaves the log unchanged (§7). -/
structure AppendResult where
  newLog : List EventRecord
  error : Option AppendError

/-- Modelled from the spec: the conditional appender (§4.4): atomically
recompute the filter's max sequence number, compare it with the
caller's expected value when one is supplied, and insert the batch only
if they agree; on mismatch insert nothing and report
`ConcurrencyConflict`. -/
def append (F : EventFilter) (events : List InputEvent) (expectedMaxSequenceNumber : Option ℕ)
    (log : List EventRecord) : AppendResult :=
  match expectedMaxSequenceNumber with
  | some s =>
    if maxSeqFor F log = s then
      { newLog := log ++ assignSeqs (globalMaxSeq log) events, error := none }
    else
      { newLog := log, error := some AppendError.concurrencyConflict }
  | none => { newLog := log ++ assignSeqs (globalMaxSeq log) events, error := none }

end EventStore

/-! ## The feature slices

Transcribed from the slice sources: the transfer-money and
deposit-money shells (`src/unnamed/part_000`) and the get-account,
withdraw-money (two variants) and open-bank-account shells
(`src/features/get-account/shell.ts`).  The slices receive the events
of `query<any>` as untyped records and access their fields
duck-typed, so every field an absent key could leave `undefined` is an
`Option`; amounts are rationals. -/

/-- An event as a feature slice sees it: an untyped record whose fields
may be absent.  `event_type` is the data field; `eventTypeM` is the
value of `e.eventType && e.eventType()` (`none` when the record has no
`eventType` method). -/
structure DomEvent where
  event_type : Option String
  eventTypeM : Option String
  accountId : Option String
  fromAccountId : Option String
  toAccountId : Option String
  transferId : Option String
  depositId : Option String
  withdrawalId : Option String
  customerName : Option String
  amount : ℚ
  initialDeposit : ℚ
  currency : Option String
deriving DecidableEq

/-- JavaScript `a || b` on possibly-undefined strings: the left operand
unless it is `undefined` or the empty string (both falsy). -/
def jsOr (a b : Option String) : Option String :=
  match a with
  | some s => if s = "" then b else some s
  | none => b

/-- The type-tag expression every slice uses to classify a returned
event: `e.event_type || (e.eventType && e.eventType())`
(part_000 lines 83, 95, 105, 187; shell.ts lines 35, 45, …). -/
def classify (e : DomEvent) : Option String :=
  jsOr e.event_type e.eventTypeM

/-- The account state a slice rebuilds: running balance and the
currency of the opening event. -/
structure AccountState where
  balance : ℚ
  currency : Option String
deriving DecidableEq

/-- One step of the balance fold shared by `buildAccountState` in the
transfer-money and withdraw-money slices (part_000 lines 104–118;
shell.ts lines 166–180, 302–316). -/
def balanceStep (accountId : String) (openCurrency : Option String) (bal : ℚ) (e : DomEvent) : ℚ :=
  let t := classify e
  if t == some "MoneyDeposited" && e.accountId == some accountId && e.currency == openCurrency then
    bal + e.amount
  else if t == some "MoneyWithdrawn" && e.accountId == some accountId && e.currency == openCurrency then
    bal - e.amount
  else if t == some "MoneyTransferred" && e.currency == openCurrency then
    if e.fromAccountId == some accountId then bal - e.amount
    else if e.toAccountId == some accountId then bal + e.amount
    else bal
  else bal

/-- `buildAccountState(events, accountId)` (part_000 lines 93–124,
identically shell.ts lines 155–186 and 291–322): find the first
`BankAccountOpened` event of the account, then fold the balance over
all events starting from its `initialDeposit`. -/
def buildAccountState (events : List DomEvent) (accountId : String) : Option AccountState :=
  match events.find? (fun e =>
      classify e == some "BankAccountOpened" && e.accountId == some accountId) with
  | none => none
  | some openingEvent =>
    some { balance := events.foldl (balanceStep accountId openingEvent.currency)
                        openingEvent.initialDeposit,
           currency := openingEvent.currency }

/-- Context of the transfer-money decision (part_000 lines 63–91). -/
structure TransferState where
  fromAccount : Option AccountState
  toAccount : Option AccountState
  existingTransferIds : List (Option String)
deriving DecidableEq

/-- `getTransferState` (part_000 lines 63–91), applied to the bare
event list the slice obtains from `eventStore.query<any>`. -/
def getTransferState (allEvents : List DomEvent) (fromAccountId toAccountId : String) :
    TransferState :=
  { fromAccount := buildAccountState allEvents fromAccountId,
    toAccount := buildAccountState allEvents toAccountId,
    existingTransferIds :=
      (allEvents.filter (fun e => classify e == some "MoneyTransferred")).map
        (fun e => e.transferId) }

/-- The account record of the deposit slice's context: only the opening
currency (part_000 line 190). -/
structure DepositAccount where
  currency : Option String
deriving DecidableEq

/-- Context of the deposit-money decision (part_000 lines 177–199). -/
structure DepositState where
  account : Option DepositAccount
  existingDepositIds : List (Option String)
deriving DecidableEq

/-- `getDepositState` (part_000 lines 177–199), applied to the bare
event list the slice obtains from `eventStore.query<any>`. -/
def getDepositState (events : List DomEvent) : DepositState :=
  let openingEvent := events.find? (fun e => classify e == some "BankAccountOpened")
  { account := openingEvent.map (fun e => { currency := e.currency }),
    existingDepositIds :=
      (events.filter (fun e => classify e == some "MoneyDeposited")).map
        (fun e => e.depositId) }

/-- Context of the withdraw-money decision (shell.ts lines 124–153 and
248–289). -/
structure WithdrawState where
  account : Option AccountState
  existingWithdrawalIds : List (Option String)
deriving DecidableEq

/-- `getWithdrawState` of the first withdraw-money variant (shell.ts
lines 124–153): three bare event lists, one per query filter. -/
def getWithdrawStateV1 (accountEvents transferFromEvents transferToEvents : List DomEvent)
    (accountId : String) : WithdrawState :=
  let allEvents := accountEvents ++ transferFromEvents ++ transferToEvents
  { account := buildAccountState allEvents accountId,
    existingWithdrawalIds :=
      (accountEvents.filter (fun e => classify e == some "MoneyWithdrawn")).map
        (fun e => e.withdrawalId) }

/-- The `{ events, maxSequenceNumber }` record shape in which the
second withdraw-money variant consumes each query result (shell.ts
lines 264–280). -/
structure DomQueryResult where
  events : List DomEvent
  maxSequenceNumber : ℕ
deriving DecidableEq

/-- Result of `getWithdrawState` of the second withdraw-money variant
(shell.ts lines 248–289): the decision context plus the combined
high-water mark of its three queries. -/
structure WithdrawStateV2 where
  state : WithdrawState
  maxSequenceNumber : ℕ
deriving DecidableEq

/-- `getWithdrawState` of the second withdraw-money variant (shell.ts
lines 248–289): consumes the three query results as records, reading
their `events` and `maxSequenceNumber` fields. -/
def getWithdrawStateV2 (accountEventsResult transferFromEventsResult transferToEventsResult :
    DomQueryResult) (accountId : String) : WithdrawStateV2 :=
  let allEvents := accountEventsResult.events ++ transferFromEventsResult.events ++
    transferToEventsResult.events
  { state :=
      { account := buildAccountState allEvents accountId,
        existingWithdrawalIds :=
          (accountEventsResult.events.filter (fun e => classify e == some "MoneyWithdrawn")).map
            (fun e => e.withdrawalId) },
    maxSequenceNumber :=
      max (max accountEventsResult.maxSequenceNumber transferFromEventsResult.maxSequenceNumber)
        transferToEventsResult.maxSequenceNumber }

/-- Context of the open-bank-account decision (shell.ts lines
367–379). -/
structure OpenAccountState where
  existingCustomerNames : List (Option String)
deriving DecidableEq

/-- `getOpenAccountState` (shell.ts lines 367–379), applied to the bare
event list the slice obtains from `eventStore.query<any>`. -/
def getOpenAccountState (allEvents : List DomEvent) : OpenAccountState :=
  { existingCustomerNames := allEvents.map (fun e => e.customerName) }

/-! ## The filters each slice builds

Transcribed from the `EventFilter.createFilter(...)` call sites of the
slice shells.  `createFilter` with no second argument passes `[]`. -/

/-- The transfer-money context query filter (part_000 lines 68–76). -/
def transferQueryFilter (fromAccountId toAccountId : String) : EventStore.EventFilter :=
  EventStore.createFilter
    ["BankAccountOpened", "MoneyDeposited", "MoneyWithdrawn", "MoneyTransferred"]
    [Json.obj [("accountId", Json.str fromAccountId)],
     Json.obj [("accountId", Json.str toAccountId)],
     Json.obj [("toAccountId", Json.str fromAccountId)],
     Json.obj [("fromAccountId", Json.str toAccountId)]]

/-- The filter the transfer-money slice passes to `append` (part_000
lines 39–40). -/
def transferAppendFilter (transferId : String) : EventStore.EventFilter :=
  (EventStore.createFilter ["MoneyTransferred"] []).withPayloadPredicate
    "transferId" (Json.str transferId)

/-- The deposit-money context query filter (part_000 lines 181–182). -/
def depositQueryFilter (accountId : String) : EventStore.EventFilter :=
  (EventStore.createFilter ["BankAccountOpened", "MoneyDeposited"] []).withPayloadPredicates
    [("accountId", Json.str accountId)]

/-- The filter the deposit-money slice passes to `append` (part_000
lines 155–156). -/
def depositAppendFilter (accountId : String) : EventStore.EventFilter :=
  (EventStore.createFilter ["MoneyDeposited"] []).withPayloadPredicate
    "accountId" (Json.str accountId)

/-- The account-events query filter shared by both withdraw-money
variants and by get-account (shell.ts lines 17–18, 128–129,
255–256). -/
def withdrawAccountEventsFilter (accountId : String) : EventStore.EventFilter :=
  (EventStore.createFilter ["BankAccountOpened", "MoneyDeposited", "MoneyWithdrawn"]
    []).withPayloadPredicates [("accountId", Json.str accountId)]

/-- The outgoing-transfers query filter of the withdraw-money variants
and get-account (shell.ts lines 20–21, 131–132, 258–259). -/
def withdrawTransferFromFilter (accountId : String) : EventStore.EventFilter :=
  (EventStore.createFilter ["MoneyTransferred"] []).withPayloadPredicates
    [("fromAccountId", Json.str accountId)]

/-- The incoming-transfers query filter of the withdraw-money variants
and get-account (shell.ts lines 23–24, 134–135, 261–262). -/
def withdrawTransferToFilter (accountId : String) : EventStore.EventFilter :=
  (EventStore.createFilter ["MoneyTransferred"] []).withPayloadPredicates
    [("toAccountId", Json.str accountId)]

/-- The filter the first withdraw-money variant passes to `append`
(shell.ts lines 101–102). -/
def withdrawV1AppendFilter (accountId : String) : EventStore.EventFilter :=
  (EventStore.createFilter ["MoneyWithdrawn"] []).withPayloadPredicate
    "accountId" (Json.str accountId)

/-- The filter the second withdraw-money variant passes to `append`
(shell.ts lines 219–226). -/
def withdrawV2AppendFilter (accountId : String) : EventStore.EventFilter :=
  EventStore.createFilter
    ["BankAccountOpened", "MoneyDeposited", "MoneyWithdrawn", "MoneyTransferred"]
    [Json.obj [("accountId", Json.str accountId)],
     Json.obj [("fromAccountId", Json.str accountId)],
     Json.obj [("toAccountId", Json.str accountId)]]

/-- The open-bank-account context query filter (shell.ts line 370). -/
def openAccountQueryFilter : EventStore.EventFilter :=
  EventStore.createFilter ["BankAccountOpened"] []

/-- The filter the open-bank-account slice passes to `append` (shell.ts
lines 344–345). -/
def openAccountAppendFilter (customerName : String) : EventStore.EventFilter :=
  (EventStore.createFilter ["BankAccountOpened"] []).withPayloadPredicate
    "customerName" (Json.str customerName)

/-! ## The pure decision cores

The `core.ts` files of the slices are not in the repository snapshot;
their behaviour is pinned by the unit tests
(`tests/deposit-money.test.ts`, `tests/withdraw-money.test.ts`) and, for
open-bank-account, by the full source reproduced in the repository
README. -/

/-- An error value as the slices return it: `{ type, message }`. -/
structure DomainError where
  errType : String
  message : String
deriving DecidableEq

/-- A slice result: `{ success: true, event }` or
`{ success: false, error: { type, message } }`. -/
inductive SliceResult (E : Type) where
  | success (event : E) : SliceResult E
  | failure (errType message : String) : SliceResult E
deriving DecidableEq

/-- The currency whitelist of the sample domain (tests: USD, EUR and
GBP are accepted, JPY is rejected; an absent currency is rejected). -/
def isSupportedCurrency : Option String → Bool
  | some c => c ∈ ["USD", "EUR", "GBP"]
  | none => false

/-- Display form of a possibly-undefined currency for error
messages. -/
def currencyText (c : Option String) : String := c.getD "undefined"

/-- The deposit event produced by the deposit core; the informational
timestamp is omitted. -/
structure MoneyDepositedEvent where
  accountId : String
  amount : ℚ
  currency : Option String
  depositId : String
deriving DecidableEq

/-- A deposit command; `currency` may be omitted by the caller. -/
structure DepositMoneyCommand where
  accountId : String
  amount : ℚ
  currency : Option String
  depositId : String
deriving DecidableEq

/-- Modelled from the spec: `validateDepositCommand` of the absent
`deposit-money/core.ts`, pinned by tests/deposit-money.test.ts: the
amount must be positive, at least 0.01 and at most 1000000, and the
currency supported. -/
def validateDepositCommand (cmd : DepositMoneyCommand) : Option DomainError :=
  if cmd.amount ≤ 0 then some ⟨"InvalidAmount", "Deposit amount must be positive"⟩
  else if cmd.amount < mkRat 1 100 then
    some ⟨"InvalidAmount", "Minimum deposit amount is 0.01"⟩
  else if cmd.amount > 1000000 then some ⟨"InvalidAmount", "Maximum deposit amount is 1000000"⟩
  else if !isSupportedCurrency cmd.currency then
    some ⟨"InvalidCurrency", "Currency " ++ currencyText cmd.currency ++ " is not supported"⟩
  else none

/-- Modelled from the spec: `processDepositCommand` of the absent
`deposit-money/core.ts`, pinned by tests/deposit-money.test.ts:
validate, reject a duplicate deposit id, otherwise build the event from
the command's fields. -/
def processDepositCommand (cmd : DepositMoneyCommand) (existingDepositIds : List (Option String)) :
    SliceResult MoneyDepositedEvent :=
  match validateDepositCommand cmd with
  | some e => .failure e.errType e.message
  | none =>
    if existingDepositIds.contains (some cmd.depositId) then
      .failure "DuplicateDeposit" "Deposit ID already exists"
    else
      .success ⟨cmd.accountId, cmd.amount, cmd.currency, cmd.depositId⟩

/-- The withdrawal event produced by the withdraw core. -/
structure MoneyWithdrawnEvent where
  accountId : String
  amount : ℚ
  currency : Option String
  withdrawalId : String
deriving DecidableEq

/-- A withdraw command; `currency` may be omitted by the caller. -/
structure WithdrawMoneyCommand where
  accountId : String
  amount : ℚ
  currency : Option String
  withdrawalId : String
deriving DecidableEq

/-- Modelled from the spec: `validateWithdrawCommand` of the absent
`withdraw-money/core.ts`, pinned by tests/withdraw-money.test.ts: the
amount must be positive, at least 0.01 and at most 10000, and the
currency supported. -/
def validateWithdrawCommand (cmd : WithdrawMoneyCommand) : Option DomainError :=
  if cmd.amount ≤ 0 then some ⟨"InvalidAmount", "Withdrawal amount must be positive"⟩
  else if cmd.amount < mkRat 1 100 then
    some ⟨"InvalidAmount", "Minimum withdrawal amount is 0.01"⟩
  else if cmd.amount > 10000 then some ⟨"InvalidAmount", "Maximum withdrawal amount is 10000"⟩
  else if !isSupportedCurrency cmd.currency then
    some ⟨"InvalidCurrency", "Currency " ++ currencyText cmd.currency ++ " is not supported"⟩
  else none

/-- Modelled from the spec: `processWithdrawCommand` of the absent
`withdraw-money/core.ts`, pinned by tests/withdraw-money.test.ts:
validate, reject a duplicate withdrawal id, reject an amount above the
current balance (withdrawing the exact balance is allowed), otherwise
build the event from the command's fields. -/
def processWithdrawCommand (cmd : WithdrawMoneyCommand) (balance : ℚ)
    (existingWithdrawalIds : List (Option String)) : SliceResult MoneyWithdrawnEvent :=
  match validateWithdrawCommand cmd with
  | some e => .failure e.errType e.message
  | none =>
    if existingWithdrawalIds.contains (some cmd.withdrawalId) then
      .failure "DuplicateWithdrawal" "Withdrawal ID already exists"
    else if cmd.amount > balance then
      .failure "InsufficientFunds" "Insufficient funds for withdrawal"
    else
      .success ⟨cmd.accountId, cmd.amount, cmd.currency, cmd.withdrawalId⟩

/-- The transfer event produced by the transfer core. -/
structure MoneyTransferredEvent where
  fromAccountId : String
  toAccountId : String
  amount : ℚ
  currency : Option String
  transferId : String
deriving DecidableEq

/-- A transfer command; `currency` may be omitted by the caller. -/
structure TransferMoneyCommand where
  fromAccountId : String
  toAccountId : String
  amount : ℚ
  currency : Option String
  transferId : String
deriving DecidableEq

/-- Modelled from the spec: `validateTransferCommand` of the absent
`transfer-money/core.ts`, by analogy with the other cores: positive
amount and supported currency. -/
def validateTransferCommand (cmd : TransferMoneyCommand) : Option DomainError :=
  if cmd.amount ≤ 0 then some ⟨"InvalidAmount", "Transfer amount must be positive"⟩
  else if !isSupportedCurrency cmd.currency then
    some ⟨"InvalidCurrency", "Currency " ++ currencyText cmd.currency ++ " is not supported"⟩
  else none

/-- Modelled from the spec: `processTransferCommand` of the absent
`transfer-money/core.ts` (called at part_000 line 32): validate,
reject a duplicate transfer id, reject an amount above the source
balance, otherwise build the event from the command's fields. -/
def processTransferCommand (cmd : TransferMoneyCommand) (fromBalance : ℚ)
    (existingTransferIds : List (Option String)) : SliceResult MoneyTransferredEvent :=
  match validateTransferCommand cmd with
  | some e => .failure e.errType e.message
  | none =>
    if existingTransferIds.contains (some cmd.transferId) then
      .failure "DuplicateTransfer" "Transfer ID already exists"
    else if cmd.amount > fromBalance then
      .failure "InsufficientFunds" "Insufficient funds for transfer"
    else
      .success ⟨cmd.fromAccountId, cmd.toAccountId, cmd.amount, cmd.currency, cmd.transferId⟩

/-- The opening event produced by the open-account core. -/
structure BankAccountOpenedEvent where
  accountId : String
  customerName : String
  accountType : Option String
  initialDeposit : ℚ
  currency : Option String
deriving DecidableEq

/-- An open-account command; all fields but the customer name may be
omitted by the caller. -/
structure OpenBankAccountCommand where
  customerName : String
  accountType : Option String
  initialDeposit : Option ℚ
  currency : Option String
deriving DecidableEq

/-- JavaScript's `String.prototype.trim` (and TypeScript's
`customerName.trim()`): strip leading and trailing whitespace.  Defined
over the character list so that concrete calls evaluate. -/
def jsTrim (s : String) : String :=
  ⟨((s.data.dropWhile Char.isWhitespace).reverse.dropWhile Char.isWhitespace).reverse⟩

/-- Modelled from the spec: `validateOpenAccountCommand` of the absent
`open-bank-account/core.ts`, pinned by the tests reproduced in
tests/withdraw-money.test.ts: a trimmed non-empty customer name of at
least two characters, a non-negative initial deposit of at most
1000000, and a supported currency. -/
def validateOpenAccountCommand (cmd : OpenBankAccountCommand) : Option DomainError :=
  if jsTrim cmd.customerName = "" then
    some ⟨"InvalidCustomerName", "Customer name is required"⟩
  else if (jsTrim cmd.customerName).length < 2 then
    some ⟨"InvalidCustomerName", "Customer name must be at least 2 characters"⟩
  else if (cmd.initialDeposit.getD 0) < 0 then
    some ⟨"InvalidInitialDeposit", "Initial deposit cannot be negative"⟩
  else if (cmd.initialDeposit.getD 0) > 1000000 then
    some ⟨"InvalidInitialDeposit", "Initial deposit cannot exceed 1000000"⟩
  else if !isSupportedCurrency cmd.currency then
    some ⟨"InvalidCurrency", "Currency " ++ currencyText cmd.currency ++ " is not supported"⟩
  else none

/-- Modelled from the spec: `processOpenAccountCommand` of the absent
`open-bank-account/core.ts`, reproduced in the repository README and
pinned by the tests: default the account type to checking and the
currency to USD, validate, reject a duplicate trimmed customer name,
otherwise build the opening event. -/
def processOpenAccountCommand (cmd : OpenBankAccountCommand) (accountId : String)
    (existingCustomerNames : List (Option String)) : SliceResult BankAccountOpenedEvent :=
  let cmdD : OpenBankAccountCommand :=
    { cmd with accountType := jsOr cmd.accountType (some "checking"),
               currency := jsOr cmd.currency (some "USD") }
  match validateOpenAccountCommand cmdD with
  | some e => .failure e.errType e.message
  | none =>
    if existingCustomerNames.contains (some (jsTrim cmdD.customerName)) then
      .failure "InvalidCustomerName" "Customer name already exists"
    else
      .success ⟨accountId, jsTrim cmdD.customerName, cmdD.accountType,
        cmdD.initialDeposit.getD 0, cmdD.currency⟩

/-! ## The slice `execute` shells

Transcribed from the shells' control flow.  The store is abstracted by
its observable behaviour in one execution: the events its queries
returned (already delivered to the context builders above) and whether
the `append` call succeeded (`appendOk = true`) or threw
(`appendOk = false`, taking the `catch` branch). -/

/-- `execute` of the transfer-money slice (part_000 lines 7–60). -/
def executeTransfer (allEvents : List DomEvent) (appendOk : Bool) (cmd : TransferMoneyCommand) :
    SliceResult MoneyTransferredEvent :=
  let transferState := getTransferState allEvents cmd.fromAccountId cmd.toAccountId
  match transferState.fromAccount with
  | none => .failure "InsufficientFunds" "From account not found"
  | some fromAccount =>
    match transferState.toAccount with
    | none => .failure "InsufficientFunds" "To account not found"
    | some _ =>
      let effectiveCommand := { cmd with currency := jsOr cmd.currency fromAccount.currency }
      match processTransferCommand effectiveCommand fromAccount.balance
          transferState.existingTransferIds with
      | .failure t m => .failure t m
      | .success ev =>
        if appendOk then .success ev
        else .failure "InsufficientFunds" "Failed to save transfer event"

/-- `execute` of the deposit-money slice (part_000 lines 130–175). -/
def executeDeposit (events : List DomEvent) (appendOk : Bool) (cmd : DepositMoneyCommand) :
    SliceResult MoneyDepositedEvent :=
  let depositState := getDepositState events
  match depositState.account with
  | none => .failure "InvalidAmount" "Account not found"
  | some account =>
    let effectiveCommand := { cmd with currency := jsOr cmd.currency account.currency }
    match processDepositCommand effectiveCommand depositState.existingDepositIds with
    | .failure t m => .failure t m
    | .success ev =>
      if appendOk then .success ev
      else .failure "InvalidAmount" "Failed to save deposit event"

/-- `execute` of the first withdraw-money variant (shell.ts lines
76–121). -/
def executeWithdrawV1 (accountEvents transferFromEvents transferToEvents : List DomEvent)
    (appendOk : Bool) (cmd : WithdrawMoneyCommand) : SliceResult MoneyWithdrawnEvent :=
  let withdrawState := getWithdrawStateV1 accountEvents transferFromEvents transferToEvents
    cmd.accountId
  match withdrawState.account with
  | none => .failure "InsufficientFunds" "Account not found"
  | some account =>
    let effectiveCommand := { cmd with currency := jsOr cmd.currency account.currency }
    match processWithdrawCommand effectiveCommand account.balance
        withdrawState.existingWithdrawalIds with
    | .failure t m => .failure t m
    | .success ev =>
      if appendOk then .success ev
      else .failure "InsufficientFunds" "Failed to save withdrawal event"

/-- `execute` of the second withdraw-money variant (shell.ts lines
192–245), consuming its three query results as
`{ events, maxSequenceNumber }` records. -/
def executeWithdrawV2 (accountEventsResult transferFromEventsResult transferToEventsResult :
    DomQueryResult) (appendOk : Bool) (cmd : WithdrawMoneyCommand) :
    SliceResult MoneyWithdrawnEvent :=
  let withdrawStateResult := getWithdrawStateV2 accountEventsResult transferFromEventsResult
    transferToEventsResult cmd.accountId
  match withdrawStateResult.state.account with
  | none => .failure "InsufficientFunds" "Account not found"
  | some account =>
    let effectiveCommand := { cmd with currency := jsOr cmd.currency account.currency }
    match processWithdrawCommand effectiveCommand account.balance
        withdrawStateResult.state.existingWithdrawalIds with
    | .failure t m => .failure t m
    | .success ev =>
      if appendOk then .success ev
      else .failure "InsufficientFunds" "Failed to save withdrawal event"

/-- `execute` of the open-bank-account slice (shell.ts lines 329–365);
`accountId` is the fresh uuid generated at line 333. -/
def executeOpenAccount (allEvents : List DomEvent) (appendOk : Bool) (accountId : String)
    (cmd : OpenBankAccountCommand) : SliceResult BankAccountOpenedEvent :=
  let openAccountState := getOpenAccountState allEvents
  match processOpenAccountCommand cmd accountId openAccountState.existingCustomerNames with
  | .failure t m => .failure t m
  | .success ev =>
    if appendOk then .success ev
    else .failure "InvalidCustomerName" "Failed to save account opening event"

/-! ## Statement-side vocabulary

Abbreviations used only to state the claims: the JavaScript notion of a
falsy optional string, and the event classes whose amounts the balance
reconstruction adds and subtracts. -/

/-- A JavaScript-falsy string value: `undefined` or the empty
string. -/
def falsyStr (c : Option String) : Prop := c = none ∨ c = some ""

instance (c : Option String) : Decidable (falsyStr c) := by
  unfold falsyStr; infer_instance

/-- A deposit into the account in the opening currency, as the balance
fold of `buildAccountState` classifies it. -/
def isDepositFor (a : String) (c : Option String) (e : DomEvent) : Bool :=
  classify e == some "MoneyDeposited" && e.accountId == some a && e.currency == c

/-- A withdrawal from the account in the opening currency. -/
def isWithdrawalFor (a : String) (c : Option String) (e : DomEvent) : Bool :=
  classify e == some "MoneyWithdrawn" && e.accountId == some a && e.currency == c

/-- A transfer out of the account in the opening currency. -/
def isTransferOutOf (a : String) (c : Option String) (e : DomEvent) : Bool :=
  classify e == some "MoneyTransferred" && e.currency == c && e.fromAccountId == some a

/-- A transfer into the account in the opening currency (the source
account being a different one, per the `else if` of the fold). -/
def isTransferInto (a : String) (c : Option String) (e : DomEvent) : Bool :=
  classify e == some "MoneyTransferred" && e.currency == c &&
    !(e.fromAccountId == some a) && e.toAccountId == some a

/-- The predicate by which `buildAccountState` locates the opening
event of an account. -/
def isOpeningFor (a : String) (e : DomEvent) : Bool :=
  classify e == some "BankAccountOpened" && e.accountId == some a

/-- Sum of the amounts of the events of one class. -/
def amountSum (p : DomEvent → Bool) (evs : List DomEvent) : ℚ :=
  ((evs.filter p).map (fun e => e.amount)).sum

/-! ## Concrete sample data

Events used by the concrete witnesses below. -/

/-- Opening event of account `acc1`: Alice, USD, initial deposit
500. -/
def openedAcc1 : DomEvent :=
  ⟨some "BankAccountOpened", none, some "acc1", none, none, none, none, none,
    some "Alice", 0, 500, some "USD"⟩

/-- Opening event of account `acc2`: Bob, USD, initial deposit 300. -/
def openedAcc2 : DomEvent :=
  ⟨some "BankAccountOpened", none, some "acc2", none, none, none, none, none,
    some "Bob", 0, 300, some "USD"⟩

/-- A deposit of 100 USD into `acc1`. -/
def depositedAcc1 : DomEvent :=
  ⟨some "MoneyDeposited", none, some "acc1", none, none, none, some "d0", none,
    none, 100, 0, some "USD"⟩

/-- A withdrawal of 50 USD from `acc1`. -/
def withdrawnAcc1 : DomEvent :=
  ⟨some "MoneyWithdrawn", none, some "acc1", none, none, none, none, some "w0",
    none, 50, 0, some "USD"⟩

/-- A transfer of 25 USD out of `acc1` into `acc2`. -/
def transferOutAcc1 : DomEvent :=
  ⟨some "MoneyTransferred", none, none, some "acc1", some "acc2", some "t0", none, none,
    none, 25, 0, some "USD"⟩

/-- A transfer of 10 USD out of `acc2` into `acc1`. -/
def transferInAcc1 : DomEvent :=
  ⟨some "MoneyTransferred", none, none, some "acc2", some "acc1", some "t9", none, none,
    none, 10, 0, some "USD"⟩

/-! ## Lemmas about the store model -/

namespace EventStore

theorem foldl_max_le_iff (l : List ℕ) (b c : ℕ) :
    l.foldl max b ≤ c ↔ b ≤ c ∧ ∀ a ∈ l, a ≤ c := by
  induction l generalizing b with
  | nil => simp
  | cons x xs ih =>
    simp only [List.foldl_cons, ih, max_le_iff, List.mem_cons]
    constructor
    · rintro ⟨⟨hb, hx⟩, hall⟩
      exact ⟨hb, fun a ha => ha.elim (fun h => h ▸ hx) (hall a)⟩
    · rintro ⟨hb, hall⟩
      exact ⟨⟨hb, hall x (Or.inl rfl)⟩, fun a ha => hall a (Or.inr ha)⟩

theorem natMax_le_iff (l : List ℕ) (c : ℕ) : natMax l ≤ c ↔ ∀ a ∈ l, a ≤ c := by
  unfold natMax
  rw [foldl_max_le_iff]
  simp

theorem le_natMax_of_mem {l : List ℕ} {a : ℕ} (h : a ∈ l) : a ≤ natMax l :=
  (natMax_le_iff l (natMax l)).mp le_rfl a h

theorem maxSeqFor_le_globalMaxSeq (F : EventFilter) (log : List EventRecord) :
    maxSeqFor F log ≤ globalMaxSeq log := by
  rw [maxSeqFor, natMax_le_iff]
  intro a ha
  rcases List.mem_map.mp ha with ⟨e, he, rfl⟩
  exact le_natMax_of_mem (List.mem_map_of_mem _ (List.mem_of_mem_filter he))

theorem le_maxSeqFor_of_matching_mem {F : EventFilter} {log : List EventRecord}
    {r : EventRecord} (hr : r ∈ log) (hm : matchesFilter F r = true) :
    r.sequence_number ≤ maxSeqFor F log :=
  le_natMax_of_mem (List.mem_map_of_mem _ (List.mem_filter.mpr ⟨hr, hm⟩))

theorem assignSeqs_seq_gt {base : ℕ} {evs : List InputEvent} :
    ∀ r ∈ assignSeqs base evs, base < r.sequence_number := by
  induction evs generalizing base with
  | nil => simp [assignSeqs]
  | cons e rest ih =>
    intro r hr
    rw [assignSeqs, List.mem_cons] at hr
    rcases hr with rfl | hr
    · exact Nat.lt_succ_self base
    · exact Nat.lt_of_succ_lt (ih r hr)

theorem assignSeqs_matching_mem {F : EventFilter} {evs : List InputEvent} {e : InputEvent}
    (he : e ∈ evs) (hm : inputMatches F e = true) (base : ℕ) :
    ∃ r ∈ assignSeqs base evs, matchesFilter F r = true ∧ base < r.sequence_number := by
  induction evs generalizing base with
  | nil => cases he
  | cons x rest ih =>
    rcases List.mem_cons.mp he with he | he
    · subst he
      exact ⟨⟨base + 1, e.event_type, e.payload⟩, List.mem_cons_self _ _,
        hm, Nat.lt_succ_self base⟩
    · rcases ih he (base + 1) with ⟨r, hr, hmr, hlt⟩
      exact ⟨r, List.mem_cons_of_mem _ hr, hmr, Nat.lt_of_succ_lt hlt⟩

theorem maxSeqFor_append_batch_gt {F : EventFilter} {log : List EventRecord}
    {evs : List InputEvent} (h : ∃ e ∈ evs, inputMatches F e = true) :
    maxSeqFor F log < maxSeqFor F (log ++ assignSeqs (globalMaxSeq log) evs) := by
  rcases h with ⟨e, he, hm⟩
  rcases assignSeqs_matching_mem he hm (globalMaxSeq log) with ⟨r, hr, hmr, hlt⟩
  calc maxSeqFor F log ≤ globalMaxSeq log := maxSeqFor_le_globalMaxSeq F log
    _ < r.sequence_number := hlt
    _ ≤ maxSeqFor F (log ++ assignSeqs (globalMaxSeq log) evs) :=
      le_maxSeqFor_of_matching_mem (List.mem_append_right _ hr) hmr

end EventStore

namespace EventStore

/-- C3: whenever `append(filter, events, expectedMaxSequenceNumber)` is
called with an expected value (as the second withdraw-money variant
does with the maximum of its three queries' `maxSequenceNumber`s) and
the current maximum sequence number of events matching the filter
differs from it, the call fails with `ConcurrencyConflict`, inserts no
events, and leaves the log unchanged. -/
theorem append_stale_expectation_conflicts (F : EventFilter) (events : List InputEvent)
    (s : ℕ) (log : List EventRecord) (h : maxSeqFor F log ≠ s) :
    (append F events (some s) log).error = some AppendError.concurrencyConflict ∧
    (append F events (some s) log).newLog = log := by
  rw [append, if_neg h]
  exact ⟨rfl, rfl⟩

/-- Witness for C3 at a concrete input: appending to an empty log with
a stale expected value of 5 conflicts and inserts nothing. -/
theorem append_stale_expectation_conflicts_witness :
    maxSeqFor (createFilter ["BankAccountOpened"] []) [] ≠ 5 ∧
    ((append (createFilter ["BankAccountOpened"] [])
        [⟨"BankAccountOpened", Json.obj []⟩] (some 5) []).error =
      some AppendError.concurrencyConflict ∧
     (append (createFilter ["BankAccountOpened"] [])
        [⟨"BankAccountOpened", Json.obj []⟩] (some 5) []).newLog = []) :=
  ⟨by decide, append_stale_expectation_conflicts _ _ _ _ (by decide)⟩

end EventStore

namespace EventStore

/-- C4: an event in the log is returned by `query(F)` iff its
`event_type` is one of `F.event_types` and either the predicate list is
empty or some payload predicate is a JSON subset of its payload. -/
theorem query_mem_iff_matches (F : EventFilter) (log : List EventRecord) (e : EventRecord)
    (hlog : e ∈ log) :
    e ∈ (query F log).events ↔
      e.event_type ∈ F.event_types ∧
        (F.payload_predicates = [] ∨
          ∃ p ∈ F.payload_predicates, jcontains e.payload p = true) := by
  rw [query]
  simp only [List.mem_filter, hlog, true_and, matchesFilter, Bool.and_eq_true,
    Bool.or_eq_true, List.any_eq_true, List.isEmpty_iff, List.contains,
    List.elem_eq_mem, decide_eq_true_eq]

end EventStore

namespace EventStore

/-- Witness for C4 at a concrete input: a stored event of type `T`
with payload `{x: 1, y: 2}` and a filter on type `T` with predicate
`{x: 1}`. -/
theorem query_mem_iff_matches_witness :
    (⟨1, "T", Json.obj [("x", Json.num 1), ("y", Json.num 2)]⟩ : EventRecord) ∈
      [(⟨1, "T", Json.obj [("x", Json.num 1), ("y", Json.num 2)]⟩ : EventRecord)] ∧
    ((⟨1, "T", Json.obj [("x", Json.num 1), ("y", Json.num 2)]⟩ : EventRecord) ∈
      (query (createFilter ["T"] [Json.obj [("x", Json.num 1)]])
        [⟨1, "T", Json.obj [("x", Json.num 1), ("y", Json.num 2)]⟩]).events ↔
      ("T" : String) ∈ (createFilter ["T"] [Json.obj [("x", Json.num 1)]]).event_types ∧
        ((createFilter ["T"] [Json.obj [("x", Json.num 1)]]).payload_predicates = [] ∨
          ∃ p ∈ (createFilter ["T"] [Json.obj [("x", Json.num 1)]]).payload_predicates,
            jcontains (Json.obj [("x", Json.num 1), ("y", Json.num 2)]) p = true)) :=
  ⟨List.mem_singleton.mpr rfl,
    query_mem_iff_matches (createFilter ["T"] [Json.obj [("x", Json.num 1)]])
      [⟨1, "T", Json.obj [("x", Json.num 1), ("y", Json.num 2)]⟩]
      ⟨1, "T", Json.obj [("x", Json.num 1), ("y", Json.num 2)]⟩
      (List.mem_singleton.mpr rfl)⟩

end EventStore

namespace EventStore

theorem race_first_wins (F : EventFilter) (log0 : List EventRecord) (s : ℕ)
    (eFirst eSecond : List InputEvent) (hobs : maxSeqFor F log0 = s)
    (hF : ∃ e ∈ eFirst, inputMatches F e = true) :
    (append F eFirst (some s) log0).error = none ∧
    (append F eSecond (some s) (append F eFirst (some s) log0).newLog).error =
      some AppendError.concurrencyConflict ∧
    (append F eSecond (some s) (append F eFirst (some s) log0).newLog).newLog =
      log0 ++ assignSeqs (globalMaxSeq log0) eFirst ∧
    ∀ r ∈ assignSeqs (globalMaxSeq log0) eFirst, s < r.sequence_number := by
  have h1 : append F eFirst (some s) log0 =
      { newLog := log0 ++ assignSeqs (globalMaxSeq log0) eFirst, error := none } := by
    rw [append, if_pos hobs]
  have hgt : s < maxSeqFor F (log0 ++ assignSeqs (globalMaxSeq log0) eFirst) :=
    hobs ▸ maxSeqFor_append_batch_gt hF
  have h2 : append F eSecond (some s) (log0 ++ assignSeqs (globalMaxSeq log0) eFirst) =
      { newLog := log0 ++ assignSeqs (globalMaxSeq log0) eFirst,
        error := some AppendError.concurrencyConflict } := by
    rw [append, if_neg (Nat.ne_of_gt hgt)]
  refine ⟨by rw [h1], by rw [h1, h2], by rw [h1, h2], fun r hr => ?_⟩
  calc s = maxSeqFor F log0 := hobs.symm
    _ ≤ globalMaxSeq log0 := maxSeqFor_le_globalMaxSeq F log0
    _ < r.sequence_number := assignSeqs_seq_gt r hr

/-- C1 (amended): for both interleavings of two concurrent
`append(F, _, s)` calls whose callers had observed
`maxSequenceNumber = s` for `F`, provided each call's batch contains at
least one event matching `F`, exactly the first-committed call
succeeds; the other fails with `ConcurrencyConflict`, and afterwards
the log is the initial log followed by the winner's events, all with
sequence numbers strictly greater than `s`, with no event of the
loser. -/
theorem race_at_most_one_append_succeeds (F : EventFilter) (log0 : List EventRecord)
    (s : ℕ) (eA eB : List InputEvent) (hobs : maxSeqFor F log0 = s)
    (hA : ∃ e ∈ eA, inputMatches F e = true) (hB : ∃ e ∈ eB, inputMatches F e = true) :
    ∀ eFirst eSecond : List InputEvent,
      (eFirst = eA ∧ eSecond = eB) ∨ (eFirst = eB ∧ eSecond = eA) →
      (append F eFirst (some s) log0).error = none ∧
      (append F eSecond (some s) (append F eFirst (some s) log0).newLog).error =
        some AppendError.concurrencyConflict ∧
      (append F eSecond (some s) (append F eFirst (some s) log0).newLog).newLog =
        log0 ++ assignSeqs (globalMaxSeq log0) eFirst ∧
      ∀ r ∈ assignSeqs (globalMaxSeq log0) eFirst, s < r.sequence_number := by
  rintro eFirst eSecond (⟨rfl, rfl⟩ | ⟨rfl, rfl⟩)
  · exact race_first_wins F log0 s _ _ hobs hA
  · exact race_first_wins F log0 s _ _ hobs hB

/-- Witness for C1 (amended) at a concrete input: an empty log, two
one-event batches of type `BankAccountOpened`, expected value 0,
first-committer order `A` then `B`. -/
theorem race_at_most_one_append_succeeds_witness :
    maxSeqFor (createFilter ["BankAccountOpened"] []) [] = 0 ∧
    (∃ e ∈ [(⟨"BankAccountOpened", Json.obj []⟩ : InputEvent)],
      inputMatches (createFilter ["BankAccountOpened"] []) e = true) ∧
    ((append (createFilter ["BankAccountOpened"] [])
        [⟨"BankAccountOpened", Json.obj []⟩] (some 0) []).error = none ∧
     (append (createFilter ["BankAccountOpened"] [])
        [⟨"BankAccountOpened", Json.obj [("k", Json.str "v")]⟩] (some 0)
        (append (createFilter ["BankAccountOpened"] [])
          [⟨"BankAccountOpened", Json.obj []⟩] (some 0) []).newLog).error =
        some AppendError.concurrencyConflict ∧
     (append (createFilter ["BankAccountOpened"] [])
        [⟨"BankAccountOpened", Json.obj [("k", Json.str "v")]⟩] (some 0)
        (append (createFilter ["BankAccountOpened"] [])
          [⟨"BankAccountOpened", Json.obj []⟩] (some 0) []).newLog).newLog =
        [] ++ assignSeqs (globalMaxSeq [])
          [(⟨"BankAccountOpened", Json.obj []⟩ : InputEvent)] ∧
     ∀ r ∈ assignSeqs (globalMaxSeq [])
        [(⟨"BankAccountOpened", Json.obj []⟩ : InputEvent)], 0 < r.sequence_number) :=
  ⟨by decide, ⟨⟨"BankAccountOpened", Json.obj []⟩, List.mem_singleton.mpr rfl, by decide⟩,
    race_at_most_one_append_succeeds (createFilter ["BankAccountOpened"] []) [] 0
      [⟨"BankAccountOpened", Json.obj []⟩]
      [⟨"BankAccountOpened", Json.obj [("k", Json.str "v")]⟩]
      (by decide)
      ⟨⟨"BankAccountOpened", Json.obj []⟩, List.mem_singleton.mpr rfl, by decide⟩
      ⟨⟨"BankAccountOpened", Json.obj [("k", Json.str "v")]⟩,
        List.mem_singleton.mpr rfl, by decide⟩
      _ _ (Or.inl ⟨rfl, rfl⟩)⟩

/-- Counterexample to C1 as stated: two racing `append(F, _, 0)` calls
that both observed `maxSequenceNumber = 0` can both succeed when the
batches are empty (the spec's own empty-batch barrier, §S5), so "at
most one call succeeds" does not hold for arbitrary batches. -/
theorem race_both_empty_appends_succeed :
    maxSeqFor (createFilter ["BankAccountOpened"] []) [] = 0 ∧
    (append (createFilter ["BankAccountOpened"] []) [] (some 0) []).error = none ∧
    (append (createFilter ["BankAccountOpened"] []) [] (some 0)
      (append (createFilter ["BankAccountOpened"] []) [] (some 0) []).newLog).error =
      none := by
  decide

end EventStore

namespace EventStore

theorem query_append_nonmatching (F : EventFilter) (log : List EventRecord) (e : EventRecord)
    (h : matchesFilter F e = false) : query F (log ++ [e]) = query F log := by
  have hf : (log ++ [e]).filter (matchesFilter F) = log.filter (matchesFilter F) := by
    rw [List.filter_append]
    simp [h]
  simp [query, maxSeqFor, hf]

end EventStore

/-- C9: a `MoneyTransferred` event whose payload has
`fromAccountId = f`, a `toAccountId` different from `f`, and no
`accountId` key matches none of the four payload predicates of the
transfer slice's context query for source `f` and target `t` (with
`f ≠ t`) — in particular a prior transfer from `f` to `t` itself — so
its presence in the log leaves the queried context unchanged: the prior
outgoing transfer is not part of the context from which the source
balance is rebuilt. -/
theorem transfer_context_misses_outgoing_transfer (f t x : String)
    (pf : List (String × Json)) (n : ℕ) (log : List EventStore.EventRecord)
    (hft : f ≠ t) (hxf : x ≠ f)
    (hacc : jlookup "accountId" pf = none)
    (hfrom : jlookup "fromAccountId" pf = some (Json.str f))
    (hto : jlookup "toAccountId" pf = some (Json.str x)) :
    EventStore.matchesFilter (transferQueryFilter f t)
      ⟨n, "MoneyTransferred", Json.obj pf⟩ = false ∧
    EventStore.query (transferQueryFilter f t)
        (log ++ [⟨n, "MoneyTransferred", Json.obj pf⟩]) =
      EventStore.query (transferQueryFilter f t) log := by
  have h1 : (x == f) = false := by
    rw [beq_eq_false_iff_ne]
    exact hxf
  have h2 : (f == t) = false := by
    rw [beq_eq_false_iff_ne]
    exact hft
  have hm : EventStore.matchesFilter (transferQueryFilter f t)
      ⟨n, "MoneyTransferred", Json.obj pf⟩ = false := by
    simp [EventStore.matchesFilter, transferQueryFilter, EventStore.createFilter,
      jcontains, jcontainsFields, hacc, hfrom, hto, h1, h2]
  exact ⟨hm, EventStore.query_append_nonmatching _ _ _ hm⟩

/-- Witness for C9 at a concrete input: a prior transfer of 50 from
`acc-from` to `acc-to` itself is invisible to the context query of a
new `acc-from` → `acc-to` transfer. -/
theorem transfer_context_misses_outgoing_transfer_witness :
    ("acc-from" : String) ≠ "acc-to" ∧
    (EventStore.matchesFilter (transferQueryFilter "acc-from" "acc-to")
      ⟨7, "MoneyTransferred",
        Json.obj [("fromAccountId", Json.str "acc-from"), ("toAccountId", Json.str "acc-to"),
          ("amount", Json.num 50), ("transferId", Json.str "tr-1")]⟩ = false ∧
    EventStore.query (transferQueryFilter "acc-from" "acc-to")
        ([] ++ [⟨7, "MoneyTransferred",
          Json.obj [("fromAccountId", Json.str "acc-from"), ("toAccountId", Json.str "acc-to"),
            ("amount", Json.num 50), ("transferId", Json.str "tr-1")]⟩]) =
      EventStore.query (transferQueryFilter "acc-from" "acc-to") []) :=
  ⟨by decide,
    transfer_context_misses_outgoing_transfer "acc-from" "acc-to" "acc-to"
      [("fromAccountId", Json.str "acc-from"), ("toAccountId", Json.str "acc-to"),
        ("amount", Json.num 50), ("transferId", Json.str "tr-1")]
      7 [] (by decide) (by decide) rfl rfl rfl⟩

/-- Counterexample to C2 as stated: already for the deposit-money
slice the filter passed to `append` is not identical to the filter of
the preceding query — the event-type sets differ — and the scopes
differ: the account's `BankAccountOpened` event matches the query
filter but not the append filter. -/
theorem deposit_append_filter_differs_from_query_filter :
    (depositAppendFilter "acct-1").event_types ≠ (depositQueryFilter "acct-1").event_types ∧
    depositAppendFilter "acct-1" ≠ depositQueryFilter "acct-1" ∧
    EventStore.matchesFilter (depositQueryFilter "acct-1")
      ⟨1, "BankAccountOpened", Json.obj [("accountId", Json.str "acct-1")]⟩ = true ∧
    EventStore.matchesFilter (depositAppendFilter "acct-1")
      ⟨1, "BankAccountOpened", Json.obj [("accountId", Json.str "acct-1")]⟩ = false := by
  refine ⟨?_, ?_, ?_, ?_⟩
  · simp [depositAppendFilter, depositQueryFilter, EventStore.createFilter,
      EventStore.EventFilter.withPayloadPredicate, EventStore.EventFilter.withPayloadPredicates]
  · intro h
    have h2 := congrArg EventStore.EventFilter.event_types h
    simp [depositAppendFilter, depositQueryFilter, EventStore.createFilter,
      EventStore.EventFilter.withPayloadPredicate,
      EventStore.EventFilter.withPayloadPredicates] at h2
  · simp [EventStore.matchesFilter, depositQueryFilter, EventStore.createFilter,
      EventStore.EventFilter.withPayloadPredicates, jcontains, jcontainsFields, jlookup]
  · simp [EventStore.matchesFilter, depositAppendFilter, EventStore.createFilter,
      EventStore.EventFilter.withPayloadPredicate]

/-- C2 (amended): in none of the slice executions is the filter passed
to `append` identical to a filter used for the preceding query: every
append filter differs from every query filter of its slice in
`event_types` or in `payload_predicates`. -/
theorem append_filters_differ_from_query_filters :
    (∀ f t tid : String, transferAppendFilter tid ≠ transferQueryFilter f t) ∧
    (∀ a : String, depositAppendFilter a ≠ depositQueryFilter a) ∧
    (∀ a : String, withdrawV1AppendFilter a ≠ withdrawAccountEventsFilter a ∧
      withdrawV1AppendFilter a ≠ withdrawTransferFromFilter a ∧
      withdrawV1AppendFilter a ≠ withdrawTransferToFilter a) ∧
    (∀ a : String, withdrawV2AppendFilter a ≠ withdrawAccountEventsFilter a ∧
      withdrawV2AppendFilter a ≠ withdrawTransferFromFilter a ∧
      withdrawV2AppendFilter a ≠ withdrawTransferToFilter a) ∧
    (∀ n : String, openAccountAppendFilter n ≠ openAccountQueryFilter) := by
  refine ⟨fun f t tid h => ?_, fun a h => ?_, fun a => ⟨fun h => ?_, fun h => ?_, fun h => ?_⟩,
    fun a => ⟨fun h => ?_, fun h => ?_, fun h => ?_⟩, fun n h => ?_⟩ <;>
    first
    | (have h2 := congrArg EventStore.EventFilter.event_types h
       simp [transferAppendFilter, transferQueryFilter, depositAppendFilter, depositQueryFilter,
         withdrawV1AppendFilter, withdrawV2AppendFilter, withdrawAccountEventsFilter,
         withdrawTransferFromFilter, withdrawTransferToFilter, openAccountAppendFilter,
         openAccountQueryFilter, EventStore.createFilter,
         EventStore.EventFilter.withPayloadPredicate,
         EventStore.EventFilter.withPayloadPredicates] at h2
       done)
    | (have h2 := congrArg EventStore.EventFilter.payload_predicates h
       simp [transferAppendFilter, transferQueryFilter, depositAppendFilter, depositQueryFilter,
         withdrawV1AppendFilter, withdrawV2AppendFilter, withdrawAccountEventsFilter,
         withdrawTransferFromFilter, withdrawTransferToFilter, openAccountAppendFilter,
         openAccountQueryFilter, EventStore.createFilter,
         EventStore.EventFilter.withPayloadPredicate,
         EventStore.EventFilter.withPayloadPredicates] at h2)

/-- C5: the same store method's result is consumed in two shapes: the
second withdraw-money variant eliminates each query result as a
`{ events, maxSequenceNumber }` record — its expected value is the
maximum of the three results' `maxSequenceNumber` fields and its
context is built from their `events` fields — while the transfer-money
and open-bank-account slices (like deposit-money and the first
withdraw-money variant) apply list operations directly to the value
returned by `query`, treating it as a bare event array. -/
theorem query_result_consumed_in_two_shapes :
    (∀ (r1 r2 r3 : DomQueryResult) (a : String),
      (getWithdrawStateV2 r1 r2 r3 a).maxSequenceNumber =
        max (max r1.maxSequenceNumber r2.maxSequenceNumber) r3.maxSequenceNumber ∧
      (getWithdrawStateV2 r1 r2 r3 a).state.account =
        buildAccountState (r1.events ++ r2.events ++ r3.events) a) ∧
    (∀ (evs : List DomEvent) (f t : String),
      (getTransferState evs f t).existingTransferIds =
        (evs.filter (fun e => classify e == some "MoneyTransferred")).map
          (fun e => e.transferId)) ∧
    (∀ evs : List DomEvent,
      (getOpenAccountState evs).existingCustomerNames = evs.map (fun e => e.customerName)) :=
  ⟨fun _ _ _ _ => ⟨rfl, rfl⟩, fun _ _ _ => rfl, fun _ => rfl⟩

/-- C7: the slices classify a returned event as
`e.event_type || (e.eventType && e.eventType())`: when the
`event_type` data field is truthy the classification is that field,
regardless of any `eventType` method; otherwise it is the method's
result. -/
theorem classify_prefers_event_type_field :
    (∀ (e : DomEvent) (s : String), e.event_type = some s → s ≠ "" →
      classify e = e.event_type) ∧
    (∀ e : DomEvent, falsyStr e.event_type → classify e = e.eventTypeM) := by
  constructor
  · intro e s hs hne
    simp [classify, jsOr, hs, hne]
  · intro e hf
    rcases hf with hf | hf <;> simp [classify, jsOr, hf]

/-- Witness for C7 at a concrete input: an event carrying both a
truthy `event_type` field and an `eventType` method returning a
different tag is classified by the data field. -/
theorem classify_prefers_event_type_field_witness :
    (⟨some "MoneyDeposited", some "SomethingElse", none, none, none, none, none, none,
        none, 0, 0, none⟩ : DomEvent).event_type = some "MoneyDeposited" ∧
    ("MoneyDeposited" : String) ≠ "" ∧
    classify (⟨some "MoneyDeposited", some "SomethingElse", none, none, none, none, none,
        none, none, 0, 0, none⟩ : DomEvent) =
      (⟨some "MoneyDeposited", some "SomethingElse", none, none, none, none, none, none,
        none, 0, 0, none⟩ : DomEvent).event_type :=
  ⟨rfl, by decide,
    classify_prefers_event_type_field.1
      ⟨some "MoneyDeposited", some "SomethingElse", none, none, none, none, none, none,
        none, 0, 0, none⟩ "MoneyDeposited" rfl (by decide)⟩

/-- C6: whenever a slice execution that would otherwise succeed has its
`eventStore.append` throw, `execute` returns `success: false` with a
domain error type also used for domain failures — `InsufficientFunds`
for transfer-money and both withdraw-money variants, `InvalidAmount`
for deposit-money, `InvalidCustomerName` for open-bank-account —
instead of a distinct store error. -/
theorem append_failure_reported_as_domain_error :
    (∀ (evs : List DomEvent) (cmd : TransferMoneyCommand) (ev : MoneyTransferredEvent),
      executeTransfer evs true cmd = .success ev →
      executeTransfer evs false cmd =
        .failure "InsufficientFunds" "Failed to save transfer event") ∧
    (∀ (evs : List DomEvent) (cmd : DepositMoneyCommand) (ev : MoneyDepositedEvent),
      executeDeposit evs true cmd = .success ev →
      executeDeposit evs false cmd = .failure "InvalidAmount" "Failed to save deposit event") ∧
    (∀ (ae tf tt : List DomEvent) (cmd : WithdrawMoneyCommand) (ev : MoneyWithdrawnEvent),
      executeWithdrawV1 ae tf tt true cmd = .success ev →
      executeWithdrawV1 ae tf tt false cmd =
        .failure "InsufficientFunds" "Failed to save withdrawal event") ∧
    (∀ (r1 r2 r3 : DomQueryResult) (cmd : WithdrawMoneyCommand) (ev : MoneyWithdrawnEvent),
      executeWithdrawV2 r1 r2 r3 true cmd = .success ev →
      executeWithdrawV2 r1 r2 r3 false cmd =
        .failure "InsufficientFunds" "Failed to save withdrawal event") ∧
    (∀ (evs : List DomEvent) (aid : String) (cmd : OpenBankAccountCommand)
        (ev : BankAccountOpenedEvent),
      executeOpenAccount evs true aid cmd = .success ev →
      executeOpenAccount evs false aid cmd =
        .failure "InvalidCustomerName" "Failed to save account opening event") := by
  refine ⟨fun evs cmd ev h => ?_, fun evs cmd ev h => ?_, fun ae tf tt cmd ev h => ?_,
    fun r1 r2 r3 cmd ev h => ?_, fun evs aid cmd ev h => ?_⟩
  · simp only [executeTransfer] at h ⊢
    repeat' split at h
    all_goals simp_all
  · simp only [executeDeposit] at h ⊢
    repeat' split at h
    all_goals simp_all
  · simp only [executeWithdrawV1] at h ⊢
    repeat' split at h
    all_goals simp_all
  · simp only [executeWithdrawV2] at h ⊢
    repeat' split at h
    all_goals simp_all
  · simp only [executeOpenAccount] at h ⊢
    repeat' split at h
    all_goals simp_all


/-- Witness for C6 at concrete inputs: one successful execution per
slice, rerun with a throwing `append`. -/
theorem append_failure_reported_as_domain_error_witness :
    (executeTransfer [openedAcc1, openedAcc2] true ⟨"acc1", "acc2", 100, some "USD", "t1"⟩ =
        .success (⟨"acc1", "acc2", 100, some "USD", "t1"⟩ : MoneyTransferredEvent) ∧
      executeTransfer [openedAcc1, openedAcc2] false ⟨"acc1", "acc2", 100, some "USD", "t1"⟩ =
        .failure "InsufficientFunds" "Failed to save transfer event") ∧
    (executeDeposit [openedAcc1] true ⟨"acc1", 100, some "USD", "d1"⟩ =
        .success (⟨"acc1", 100, some "USD", "d1"⟩ : MoneyDepositedEvent) ∧
      executeDeposit [openedAcc1] false ⟨"acc1", 100, some "USD", "d1"⟩ =
        .failure "InvalidAmount" "Failed to save deposit event") ∧
    (executeWithdrawV1 [openedAcc1] [] [] true ⟨"acc1", 100, some "USD", "w1"⟩ =
        .success (⟨"acc1", 100, some "USD", "w1"⟩ : MoneyWithdrawnEvent) ∧
      executeWithdrawV1 [openedAcc1] [] [] false ⟨"acc1", 100, some "USD", "w1"⟩ =
        .failure "InsufficientFunds" "Failed to save withdrawal event") ∧
    (executeWithdrawV2 ⟨[openedAcc1], 1⟩ ⟨[], 0⟩ ⟨[], 0⟩ true ⟨"acc1", 100, some "USD", "w1"⟩ =
        .success (⟨"acc1", 100, some "USD", "w1"⟩ : MoneyWithdrawnEvent) ∧
      executeWithdrawV2 ⟨[openedAcc1], 1⟩ ⟨[], 0⟩ ⟨[], 0⟩ false ⟨"acc1", 100, some "USD", "w1"⟩ =
        .failure "InsufficientFunds" "Failed to save withdrawal event") ∧
    (executeOpenAccount [] true "acc9" ⟨"Alice", none, some 100, none⟩ =
        .success (⟨"acc9", "Alice", some "checking", 100, some "USD"⟩ : BankAccountOpenedEvent) ∧
      executeOpenAccount [] false "acc9" ⟨"Alice", none, some 100, none⟩ =
        .failure "InvalidCustomerName" "Failed to save account opening event") :=
  ⟨⟨by decide, append_failure_reported_as_domain_error.1 _ _
      ⟨"acc1", "acc2", 100, some "USD", "t1"⟩ (by decide)⟩,
   ⟨by decide, append_failure_reported_as_domain_error.2.1 _ _
      ⟨"acc1", 100, some "USD", "d1"⟩ (by decide)⟩,
   ⟨by decide, append_failure_reported_as_domain_error.2.2.1 _ _ _ _
      ⟨"acc1", 100, some "USD", "w1"⟩ (by decide)⟩,
   ⟨by decide, append_failure_reported_as_domain_error.2.2.2.1 _ _ _ _
      ⟨"acc1", 100, some "USD", "w1"⟩ (by decide)⟩,
   ⟨by decide, append_failure_reported_as_domain_error.2.2.2.2 _ _ _
      ⟨"acc9", "Alice", some "checking", 100, some "USD"⟩ (by decide)⟩⟩

theorem jsOr_falsy {a b : Option String} (h : falsyStr a) : jsOr a b = b := by
  rcases h with h | h <;> simp [jsOr, h]

theorem processDepositCommand_success_eq {cmd : DepositMoneyCommand}
    {ids : List (Option String)} {ev : MoneyDepositedEvent}
    (h : processDepositCommand cmd ids = .success ev) :
    ev = ⟨cmd.accountId, cmd.amount, cmd.currency, cmd.depositId⟩ := by
  simp only [processDepositCommand] at h
  repeat' split at h
  all_goals first
    | exact SliceResult.noConfusion h
    | (simp only [SliceResult.success.injEq] at h; exact h.symm)

theorem processWithdrawCommand_success_eq {cmd : WithdrawMoneyCommand} {balance : ℚ}
    {ids : List (Option String)} {ev : MoneyWithdrawnEvent}
    (h : processWithdrawCommand cmd balance ids = .success ev) :
    ev = ⟨cmd.accountId, cmd.amount, cmd.currency, cmd.withdrawalId⟩ := by
  simp only [processWithdrawCommand] at h
  repeat' split at h
  all_goals first
    | exact SliceResult.noConfusion h
    | (simp only [SliceResult.success.injEq] at h; exact h.symm)

theorem processTransferCommand_success_eq {cmd : TransferMoneyCommand} {balance : ℚ}
    {ids : List (Option String)} {ev : MoneyTransferredEvent}
    (h : processTransferCommand cmd balance ids = .success ev) :
    ev = ⟨cmd.fromAccountId, cmd.toAccountId, cmd.amount, cmd.currency, cmd.transferId⟩ := by
  simp only [processTransferCommand] at h
  repeat' split at h
  all_goals first
    | exact SliceResult.noConfusion h
    | (simp only [SliceResult.success.injEq] at h; exact h.symm)

theorem executeDeposit_success_inv {evs : List DomEvent} {ok : Bool}
    {cmd : DepositMoneyCommand} {ev : MoneyDepositedEvent}
    (h : executeDeposit evs ok cmd = .success ev) :
    ∃ acct, (getDepositState evs).account = some acct ∧
      ev.currency = jsOr cmd.currency acct.currency := by
  simp only [executeDeposit] at h
  split at h
  · exact SliceResult.noConfusion h
  · rename_i acct hacct
    refine ⟨acct, hacct, ?_⟩
    split at h
    · exact SliceResult.noConfusion h
    · rename_i ev2 hp
      have he2 := processDepositCommand_success_eq hp
      split at h
      · simp only [SliceResult.success.injEq] at h
        rw [← h, he2]
      · exact SliceResult.noConfusion h

theorem executeWithdrawV1_success_inv {ae tf tt : List DomEvent} {ok : Bool}
    {cmd : WithdrawMoneyCommand} {ev : MoneyWithdrawnEvent}
    (h : executeWithdrawV1 ae tf tt ok cmd = .success ev) :
    ∃ acct, (getWithdrawStateV1 ae tf tt cmd.accountId).account = some acct ∧
      ev.currency = jsOr cmd.currency acct.currency := by
  simp only [executeWithdrawV1] at h
  split at h
  · exact SliceResult.noConfusion h
  · rename_i acct hacct
    refine ⟨acct, hacct, ?_⟩
    split at h
    · exact SliceResult.noConfusion h
    · rename_i ev2 hp
      have he2 := processWithdrawCommand_success_eq hp
      split at h
      · simp only [SliceResult.success.injEq] at h
        rw [← h, he2]
      · exact SliceResult.noConfusion h

theorem executeTransfer_success_inv {evs : List DomEvent} {ok : Bool}
    {cmd : TransferMoneyCommand} {ev : MoneyTransferredEvent}
    (h : executeTransfer evs ok cmd = .success ev) :
    ∃ acct, (getTransferState evs cmd.fromAccountId cmd.toAccountId).fromAccount = some acct ∧
      ev.currency = jsOr cmd.currency acct.currency := by
  simp only [executeTransfer] at h
  split at h
  · exact SliceResult.noConfusion h
  · rename_i acct hacct
    refine ⟨acct, hacct, ?_⟩
    split at h
    · exact SliceResult.noConfusion h
    · split at h
      · exact SliceResult.noConfusion h
      · rename_i ev2 hp
        have he2 := processTransferCommand_success_eq hp
        split at h
        · simp only [SliceResult.success.injEq] at h
          rw [← h, he2]
        · exact SliceResult.noConfusion h

/-- C10: in the deposit-money, withdraw-money and transfer-money
slices, when the command's currency is falsy and the queried account
exists, `execute` substitutes the account's currency (which the context
builders take from the `BankAccountOpened` event) before running the
pure decision function, so a produced event's currency equals the
account's opening currency. -/
theorem absent_currency_defaults_to_account_currency :
    (∀ (evs : List DomEvent) (ok : Bool) (cmd : DepositMoneyCommand)
        (ev : MoneyDepositedEvent), falsyStr cmd.currency →
      executeDeposit evs ok cmd = .success ev →
      ∃ acct, (getDepositState evs).account = some acct ∧ ev.currency = acct.currency) ∧
    (∀ (ae tf tt : List DomEvent) (ok : Bool) (cmd : WithdrawMoneyCommand)
        (ev : MoneyWithdrawnEvent), falsyStr cmd.currency →
      executeWithdrawV1 ae tf tt ok cmd = .success ev →
      ∃ acct, (getWithdrawStateV1 ae tf tt cmd.accountId).account = some acct ∧
        ev.currency = acct.currency) ∧
    (∀ (evs : List DomEvent) (ok : Bool) (cmd : TransferMoneyCommand)
        (ev : MoneyTransferredEvent), falsyStr cmd.currency →
      executeTransfer evs ok cmd = .success ev →
      ∃ acct, (getTransferState evs cmd.fromAccountId cmd.toAccountId).fromAccount = some acct ∧
        ev.currency = acct.currency) := by
  refine ⟨fun evs ok cmd ev hf h => ?_, fun ae tf tt ok cmd ev hf h => ?_,
    fun evs ok cmd ev hf h => ?_⟩
  · rcases executeDeposit_success_inv h with ⟨acct, hacct, hc⟩
    exact ⟨acct, hacct, by rw [hc, jsOr_falsy hf]⟩
  · rcases executeWithdrawV1_success_inv h with ⟨acct, hacct, hc⟩
    exact ⟨acct, hacct, by rw [hc, jsOr_falsy hf]⟩
  · rcases executeTransfer_success_inv h with ⟨acct, hacct, hc⟩
    exact ⟨acct, hacct, by rw [hc, jsOr_falsy hf]⟩

/-- Witness for C10 at a concrete input: a deposit command with no
currency into `acc1` (opened in USD) produces a USD event. -/
theorem absent_currency_defaults_to_account_currency_witness :
    falsyStr (none : Option String) ∧
    executeDeposit [openedAcc1] true ⟨"acc1", 100, none, "d1"⟩ =
      .success (⟨"acc1", 100, some "USD", "d1"⟩ : MoneyDepositedEvent) ∧
    ∃ acct, (getDepositState [openedAcc1]).account = some acct ∧
      (⟨"acc1", 100, some "USD", "d1"⟩ : MoneyDepositedEvent).currency = acct.currency :=
  ⟨Or.inl rfl, by decide,
    absent_currency_defaults_to_account_currency.1 [openedAcc1] true ⟨"acc1", 100, none, "d1"⟩
      ⟨"acc1", 100, some "USD", "d1"⟩ (Or.inl rfl) (by decide)⟩

theorem amountSum_cons (p : DomEvent → Bool) (e : DomEvent) (evs : List DomEvent) :
    amountSum p (e :: evs) = (if p e then e.amount else 0) + amountSum p evs := by
  simp only [amountSum, List.filter_cons]
  split_ifs <;> simp

theorem balanceStep_eq (a : String) (c : Option String) (bal : ℚ) (e : DomEvent) :
    balanceStep a c bal e =
      bal + (if isDepositFor a c e then e.amount else 0)
          - (if isWithdrawalFor a c e then e.amount else 0)
          - (if isTransferOutOf a c e then e.amount else 0)
          + (if isTransferInto a c e then e.amount else 0) := by
  simp only [balanceStep, isDepositFor, isWithdrawalFor, isTransferOutOf, isTransferInto]
  split_ifs <;> simp_all

theorem foldl_balanceStep (a : String) (c : Option String) (evs : List DomEvent) :
    ∀ init : ℚ, evs.foldl (balanceStep a c) init =
      init + amountSum (isDepositFor a c) evs - amountSum (isWithdrawalFor a c) evs
        - amountSum (isTransferOutOf a c) evs + amountSum (isTransferInto a c) evs := by
  induction evs with
  | nil => intro init; simp [amountSum]
  | cons e evs ih =>
    intro init
    rw [List.foldl_cons, ih, balanceStep_eq, amountSum_cons, amountSum_cons, amountSum_cons,
      amountSum_cons]
    ring

/-- C8: `buildAccountState(evs, a)` returns `null` exactly when `evs`
has no event classified `BankAccountOpened` with `accountId = a`;
otherwise, with `o` the first such opening event, it returns `o`'s
currency and the balance `o.initialDeposit` plus the deposits into the
account in that currency, minus its withdrawals in that currency, minus
the transfers out of it in that currency, plus the transfers into it
(from another account) in that currency. -/
theorem buildAccountState_spec (evs : List DomEvent) (a : String) :
    (buildAccountState evs a = none ↔
      ∀ e ∈ evs, ¬(classify e = some "BankAccountOpened" ∧ e.accountId = some a)) ∧
    ∀ o, evs.find? (fun e =>
        classify e == some "BankAccountOpened" && e.accountId == some a) = some o →
      buildAccountState evs a = some
        { balance := o.initialDeposit
            + amountSum (isDepositFor a o.currency) evs
            - amountSum (isWithdrawalFor a o.currency) evs
            - amountSum (isTransferOutOf a o.currency) evs
            + amountSum (isTransferInto a o.currency) evs,
          currency := o.currency } := by
  constructor
  · unfold buildAccountState
    cases hfind : evs.find? (fun e =>
        classify e == some "BankAccountOpened" && e.accountId == some a) with
    | none =>
      refine iff_of_true rfl fun e he hcon => ?_
      have hnot := List.find?_eq_none.mp hfind e he
      simp only [Bool.and_eq_true, beq_iff_eq] at hnot
      exact hnot ⟨hcon.1, hcon.2⟩
    | some o =>
      refine iff_of_false (by simp) fun hall => ?_
      have hmem := List.mem_of_find?_eq_some hfind
      have hpred := List.find?_some hfind
      simp only [Bool.and_eq_true, beq_iff_eq] at hpred
      exact hall o hmem ⟨hpred.1, hpred.2⟩
  · intro o hfind
    unfold buildAccountState
    rw [hfind]
    simp only [foldl_balanceStep]

/-- Witness for C8 at a concrete input: account `acc1` opened with 500
USD, a deposit of 100, a withdrawal of 50, a transfer of 25 out and a
transfer of 10 in. -/
theorem buildAccountState_spec_witness :
    [openedAcc1, depositedAcc1, withdrawnAcc1, transferOutAcc1, transferInAcc1].find?
        (fun e => classify e == some "BankAccountOpened" && e.accountId == some "acc1") =
      some openedAcc1 ∧
    buildAccountState
        [openedAcc1, depositedAcc1, withdrawnAcc1, transferOutAcc1, transferInAcc1] "acc1" =
      some
        { balance := openedAcc1.initialDeposit
            + amountSum (isDepositFor "acc1" openedAcc1.currency)
                [openedAcc1, depositedAcc1, withdrawnAcc1, transferOutAcc1, transferInAcc1]
            - amountSum (isWithdrawalFor "acc1" openedAcc1.currency)
                [openedAcc1, depositedAcc1, withdrawnAcc1, transferOutAcc1, transferInAcc1]
            - amountSum (isTransferOutOf "acc1" openedAcc1.currency)
                [openedAcc1, depositedAcc1, withdrawnAcc1, transferOutAcc1, transferInAcc1]
            + amountSum (isTransferInto "acc1" openedAcc1.currency)
                [openedAcc1, depositedAcc1, withdrawnAcc1, transferOutAcc1, transferInAcc1],
          currency := openedAcc1.currency } :=
  ⟨by decide,
    (buildAccountState_spec
        [openedAcc1, depositedAcc1, withdrawnAcc1, transferOutAcc1, transferInAcc1] "acc1").2
      openedAcc1 (by decide)⟩

/-- Witness for C2 (amended) at concrete inputs: the transfer and
deposit append filters differ from their slices' query filters at
concrete account and transfer ids. -/
theorem append_filters_differ_from_query_filters_witness :
    transferAppendFilter "tr-1" ≠ transferQueryFilter "acc1" "acc2" ∧
    depositAppendFilter "acc1" ≠ depositQueryFilter "acc1" ∧
    withdrawV1AppendFilter "acc1" ≠ withdrawAccountEventsFilter "acc1" ∧
    withdrawV2AppendFilter "acc1" ≠ withdrawAccountEventsFilter "acc1" ∧
    openAccountAppendFilter "Alice" ≠ openAccountQueryFilter :=
  ⟨append_filters_differ_from_query_filters.1 "acc1" "acc2" "tr-1",
   append_filters_differ_from_query_filters.2.1 "acc1",
   (append_filters_differ_from_query_filters.2.2.1 "acc1").1,
   (append_filters_differ_from_query_filters.2.2.2.1 "acc1").1,
   append_filters_differ_from_query_filters.2.2.2.2 "Alice"⟩
